import Mathlib

/-!
# Verification of the memocards plugin (`src/main.ts`)

Shallow embedding of the PNG-memo generator plugin. Pure data
transformations (style resolution, the settings merge) become Lean
functions; the effectful command flow becomes an explicit trace of
DOM operations, file-system operations and user notices, driven by an
environment that supplies the results of the external collaborators
(active view lookup, rasterization library, file-system adapter).
-/

set_option autoImplicit false

namespace Memocards

/-- A JSON-scalar value as stored in the persisted settings blob:
every field of the configuration record is a string or a boolean. -/
inductive Value where
  | str (s : String) : Value
  | bool (b : Bool) : Value
deriving DecidableEq, Repr

/-- The `PluginSettings` interface of `src/main.ts` (lines 13-22). -/
structure PluginSettings where
  width : String
  minHeight : String
  backgroundColor : String
  textColor : String
  fontSize : String
  fontFamily : String
  useLinearGradient : Bool
  linearGradient : String
deriving DecidableEq, Repr

/-- `DEFAULT_SETTINGS` of `src/main.ts` (lines 25-35). -/
def DEFAULT_SETTINGS : PluginSettings :=
  { width := "800px"
    minHeight := "200px"
    backgroundColor := "#333333"
    textColor := "#ffffff"
    fontSize := "32px"
    fontFamily := "Arial, sans-serif"
    useLinearGradient := true
    linearGradient := "linear-gradient(90deg, rgba(215,199,25,0.9317926999901524) 9%, rgba(62,253,29,1) 40%, rgba(252,73,69,1) 100%)" }

/-- The style descriptor built in `createPngFromText`
(`src/main.ts` lines 70-83): the `styles` object literal. -/
structure StyleDescriptor where
  width : String
  minHeight : String
  background : String
  color : String
  display : String
  alignItems : String
  justifyContent : String
  textAlign : String
  fontSize : String
  fontFamily : String
deriving DecidableEq, Repr

/-- The `styles` object literal of `createPngFromText`
(`src/main.ts` lines 70-83), as a function of the settings record. -/
def resolveStyles (s : PluginSettings) : StyleDescriptor :=
  { width := s.width
    minHeight := s.minHeight
    background := if s.useLinearGradient then s.linearGradient else s.backgroundColor
    color := s.textColor
    display := "flex"
    alignItems := "center"
    justifyContent := "center"
    textAlign := "center"
    fontSize := s.fontSize
    fontFamily := s.fontFamily }

/-- One property write into a JS object: replaces the value at an
existing key in place, otherwise appends the new key at the end
(JS object insertion-order semantics). -/
def setKey : List (String × Value) → String → Value → List (String × Value)
  | [], k, v => [(k, v)]
  | (k', v') :: rest, k, v =>
    if k' = k then (k', v) :: rest else (k', v') :: setKey rest k v

/-- `Object.assign(target, src)`: copies every own property of `src`
into `target`, in order, later writes overwriting earlier ones. -/
def objAssign (target src : List (String × Value)) : List (String × Value) :=
  src.foldl (fun acc kv => setKey acc kv.1 kv.2) target

/-- JS property read: first (and, for a real JS object, only) binding
of the key. -/
def lookupKey : List (String × Value) → String → Option Value
  | [], _ => none
  | (k', v') :: rest, k => if k' = k then some v' else lookupKey rest k

/-- The keys of a settings blob, in insertion order. -/
def keysOf (m : List (String × Value)) : List String := m.map Prod.fst

/-- `DEFAULT_SETTINGS` as the key-value object it is at runtime. -/
def defaultsMap : List (String × Value) :=
  [("width", .str DEFAULT_SETTINGS.width),
   ("minHeight", .str DEFAULT_SETTINGS.minHeight),
   ("backgroundColor", .str DEFAULT_SETTINGS.backgroundColor),
   ("textColor", .str DEFAULT_SETTINGS.textColor),
   ("fontSize", .str DEFAULT_SETTINGS.fontSize),
   ("fontFamily", .str DEFAULT_SETTINGS.fontFamily),
   ("useLinearGradient", .bool DEFAULT_SETTINGS.useLinearGradient),
   ("linearGradient", .str DEFAULT_SETTINGS.linearGradient)]

/-- `loadSettings` (`src/main.ts` lines 123-129):
`Object.assign(empty, DEFAULT_SETTINGS, data)` where `data` is the
persisted blob returned by `this.loadData()`. -/
def loadSettings (data : List (String × Value)) : List (String × Value) :=
  objAssign (objAssign [] defaultsMap) data

/-- `loadSettings` as a transformer of the plugin's `settings` state:
the merged record is built in a fresh object and assigned wholesale to
`this.settings`, so the previous value is discarded. -/
def loadSettingsState (_old : List (String × Value)) (data : List (String × Value)) :
    List (String × Value) :=
  loadSettings data

/-- A tiny object heap: references are indices into a list of objects.
Used to state that the settings merge mutates only its fresh target
object, never `DEFAULT_SETTINGS`. -/
structure Heap where
  objs : List (List (String × Value))
deriving Repr

/-- Read the object at a reference. -/
def Heap.get (h : Heap) (r : Nat) : List (String × Value) := h.objs.getD r []

/-- Overwrite the object at a reference. -/
def Heap.set (h : Heap) (r : Nat) (m : List (String × Value)) : Heap :=
  ⟨h.objs.set r m⟩

/-- Allocate a fresh object, returning the new heap and its reference. -/
def Heap.alloc (h : Heap) (m : List (String × Value)) : Heap × Nat :=
  (⟨h.objs ++ [m]⟩, h.objs.length)

/-- `Object.assign(target, src)` as a heap mutation of `target`. -/
def assignInto (h : Heap) (tgt : Nat) (src : List (String × Value)) : Heap :=
  h.set tgt (objAssign (h.get tgt) src)

/-- `loadSettings` with the heap explicit: the object literal allocates
a fresh empty object, and `Object.assign` copies the defaults and then
the persisted blob into that fresh object. -/
def loadSettingsHeap (h : Heap) (defaultsRef : Nat) (data : List (String × Value)) :
    Heap × Nat :=
  let p := h.alloc []
  let h2 := assignInto p.1 p.2 (p.1.get defaultsRef)
  let h3 := assignInto h2 p.2 data
  (h3, p.2)

/-- Auxiliary for `jsSplit`: splits off the accumulated chunk at each
separator. -/
def splitCharAux (sep : Char) : List Char → List Char → List (List Char)
  | [], acc => [acc.reverse]
  | c :: cs, acc =>
    if c = sep then acc.reverse :: splitCharAux sep cs []
    else splitCharAux sep cs (c :: acc)

/-- JS `String.prototype.split` with a one-character separator (the
source only splits on `"/"` and `","`). -/
def jsSplit (s : String) (sep : Char) : List String :=
  (splitCharAux sep s.data []).map (fun l => String.mk l)

/-- Modelled from the spec: Obsidian's `normalizePath` is an external
collaborator (out of scope in the spec), described only as normalizing
the target path for path-separator consistency; modelled as replacing
backslashes with forward slashes. It is the identity on the
`memos/memo-(millis).png` paths the plugin builds. -/
def normalizePath (p : String) : String :=
  String.mk (p.data.map (fun c => if c = '\\' then '/' else c))

/-- A user-visible notice (`new Notice(...)` in `src/main.ts`), one
constructor per message shape in the source. -/
inductive NoticeMsg where
  | noActiveView : NoticeMsg
  | noSelection : NoticeMsg
  | saveFailed (errMsg : String) : NoticeMsg
  | saved (path : String) : NoticeMsg
deriving DecidableEq, Repr

/-- A binary buffer; the payload is kept opaque as the base64 text it
was decoded from (`Buffer.from(base64Data, "base64")`). -/
structure Buffer where
  base64 : String
deriving DecidableEq, Repr

/-- A call made to the vault's file-system adapter. -/
inductive FsOp where
  | checkExists (dir : String) : FsOp
  | mkdir (dir : String) : FsOp
  | writeBinary (path : String) (buf : Buffer) : FsOp
deriving DecidableEq, Repr

/-- A DOM mutation performed on `document.body` with the temporary div. -/
inductive DomOp where
  | appendChild : DomOp
  | removeChild : DomOp
deriving DecidableEq, Repr

/-- Behaviour of the vault's file-system adapter (an external
collaborator): each method either returns a value or throws with an
error message. -/
structure Adapter where
  existsDir : String → Except String Bool
  mkdir : String → Except String Unit
  writeBinary : String → Buffer → Except String Unit

/-- `normalizedPath.split("/").slice(0, -1).join("/")`
(`src/main.ts` line 111). -/
def dirOf (normalizedPath : String) : String :=
  String.intercalate "/" ((jsSplit normalizedPath '/').dropLast)

/-- Trace of one persistence call: the adapter calls made, the notices
shown, and whether the call completed or threw. -/
structure SaveTrace where
  ops : List FsOp
  notices : List NoticeMsg
  outcome : Except String Unit
deriving Repr

/-- The `try` block of `savePngToVault` (`src/main.ts` lines 106-117):
the adapter calls attempted, in order, and the thrown error if any. -/
def savePngBody (a : Adapter) (filePath : String) (buffer : Buffer) :
    List FsOp × Except String Unit :=
  let normalizedPath := normalizePath filePath
  let dir := dirOf normalizedPath
  match a.existsDir dir with
  | .error e => ([.checkExists dir], .error e)
  | .ok true =>
    match a.writeBinary normalizedPath buffer with
    | .error e => ([.checkExists dir, .writeBinary normalizedPath buffer], .error e)
    | .ok _ => ([.checkExists dir, .writeBinary normalizedPath buffer], .ok ())
  | .ok false =>
    match a.mkdir dir with
    | .error e => ([.checkExists dir, .mkdir dir], .error e)
    | .ok _ =>
      match a.writeBinary normalizedPath buffer with
      | .error e =>
        ([.checkExists dir, .mkdir dir, .writeBinary normalizedPath buffer], .error e)
      | .ok _ =>
        ([.checkExists dir, .mkdir dir, .writeBinary normalizedPath buffer], .ok ())

/-- `savePngToVault` (`src/main.ts` lines 105-121): the body wrapped in
`try/catch`; a thrown error becomes a single failure notice carrying
`error.message`, and the function itself resolves normally. -/
def savePngToVault (a : Adapter) (filePath : String) (buffer : Buffer) : SaveTrace :=
  match savePngBody a filePath buffer with
  | (ops, .ok _) => ⟨ops, [], .ok ()⟩
  | (ops, .error e) => ⟨ops, [.saveFailed e], .ok ()⟩

/-- The file name built at `src/main.ts` line 96. -/
def memoFileName (now : Nat) : String := "memo-" ++ toString now ++ ".png"

/-- `normalizePath("memos/" + fileName)` (`src/main.ts` line 97). -/
def memoFilePath (now : Nat) : String :=
  normalizePath ("memos/" ++ memoFileName now)

/-- `Buffer.from(dataUrl.split(",")[1], "base64")` (`src/main.ts`
lines 91-93); `canvas.toDataURL("image/png")` always yields a data URL
with exactly one comma before the base64 payload, so index 1 exists. -/
def bufferOfCanvas (dataUrl : String) : Buffer :=
  ⟨(jsSplit dataUrl ',').getD 1 ""⟩

/-- The active Markdown view, reduced to what the code reads from it:
the editor's current selection. -/
structure EditorView where
  selection : String
deriving DecidableEq, Repr

/-- The external world of one command invocation: the active-view
lookup, the rasterization outcome (the canvas's PNG data URL on
success, the rejection message on failure), the vault's file-system
adapter, and the clock (`Date.now()`). -/
structure Env where
  activeView : Option EditorView
  raster : Except String String
  adapter : Adapter
  now : Nat

/-- Observable behaviour of one command invocation: the style and text
given to the temporary div (if one was created), the DOM mutations, the
file-system calls, the notices shown, and whether the invocation
completed (`.error` models an unhandled promise rejection). -/
structure Trace where
  style : Option StyleDescriptor
  divText : Option String
  domOps : List DomOp
  fsOps : List FsOp
  notices : List NoticeMsg
  outcome : Except String Unit
deriving Repr

/-- `createPngFromText` (`src/main.ts` lines 67-103): builds the div,
styles it with the resolved style descriptor, sets its text, appends it
to `document.body`, and rasterizes. The `.then` continuation encodes
and saves the PNG, shows the success notice, and removes the div; there
is no rejection handler, so on rasterization failure the continuation
never runs. -/
def createPngFromText (env : Env) (s : PluginSettings) (text : String) : Trace :=
  let style := resolveStyles s
  match env.raster with
  | .error e => ⟨some style, some text, [.appendChild], [], [], .error e⟩
  | .ok dataUrl =>
    let buffer := bufferOfCanvas dataUrl
    let filePath := memoFilePath env.now
    let st := savePngToVault env.adapter filePath buffer
    ⟨some style, some text, [.appendChild, .removeChild], st.ops,
      st.notices ++ [.saved filePath], .ok ()⟩

/-- `generatePngMemo` (`src/main.ts` lines 52-65): aborts with a single
notice when there is no active Markdown view or when the selection is
empty (JS falsiness of `""`), otherwise renders the selection. -/
def generatePngMemo (env : Env) (s : PluginSettings) : Trace :=
  match env.activeView with
  | none => ⟨none, none, [], [], [.noActiveView], .ok ()⟩
  | some mdView =>
    let selectedText := mdView.selection
    if selectedText = "" then ⟨none, none, [], [], [.noSelection], .ok ()⟩
    else createPngFromText env s selectedText

/-- An adapter on which every call succeeds and the directory exists. -/
def adapterOk : Adapter :=
  ⟨fun _ => .ok true, fun _ => .ok (), fun _ _ => .ok ()⟩

/-- An adapter on which the directory is absent and every call succeeds. -/
def adapterNoDir : Adapter :=
  ⟨fun _ => .ok false, fun _ => .ok (), fun _ _ => .ok ()⟩

/-- An adapter whose binary write throws with message "disk full". -/
def adapterWriteFails : Adapter :=
  ⟨fun _ => .ok true, fun _ => .ok (), fun _ _ => .error "disk full"⟩

/-- A concrete environment in which rasterization fails. -/
def envRasterFails : Env :=
  ⟨some ⟨"Hello"⟩, .error "render failed", adapterOk, 0⟩

end Memocards

namespace Memocards

theorem lookupKey_setKey_self (m : List (String × Value)) (k : String) (v : Value) :
    lookupKey (setKey m k v) k = some v := by
  induction m with
  | nil => simp [setKey, lookupKey]
  | cons kv rest ih =>
    obtain ⟨k', v'⟩ := kv
    by_cases h : k' = k <;> simp [setKey, lookupKey, h, ih]

theorem lookupKey_setKey_ne (m : List (String × Value)) (k j : String) (v : Value)
    (h : j ≠ k) : lookupKey (setKey m k v) j = lookupKey m j := by
  induction m with
  | nil => simp [setKey, lookupKey, Ne.symm h]
  | cons kv rest ih =>
    obtain ⟨k', v'⟩ := kv
    by_cases hk : k' = k
    · subst hk
      simp [setKey, lookupKey, Ne.symm h]
    · by_cases hj : k' = j <;> simp [setKey, lookupKey, hk, hj, ih, h]

theorem lookupKey_eq_none_of_not_mem (m : List (String × Value)) (j : String)
    (h : j ∉ keysOf m) : lookupKey m j = none := by
  induction m with
  | nil => rfl
  | cons kv rest ih =>
    obtain ⟨k', v'⟩ := kv
    simp only [keysOf, List.map_cons, List.mem_cons] at h
    push_neg at h
    simp [lookupKey, Ne.symm h.1, ih (by simpa [keysOf] using h.2)]

theorem objAssign_cons (t : List (String × Value)) (kv : String × Value)
    (rest : List (String × Value)) :
    objAssign t (kv :: rest) = objAssign (setKey t kv.1 kv.2) rest := rfl

theorem lookupKey_objAssign (t s : List (String × Value)) (k : String)
    (hnd : (keysOf s).Nodup) :
    lookupKey (objAssign t s) k =
      match lookupKey s k with
      | some v => some v
      | none => lookupKey t k := by
  induction s generalizing t with
  | nil => simp [objAssign, lookupKey]
  | cons kv rest ih =>
    obtain ⟨k₀, v₀⟩ := kv
    simp only [keysOf, List.map_cons, List.nodup_cons] at hnd
    rw [objAssign_cons, ih _ (by simpa [keysOf] using hnd.2)]
    by_cases h : k₀ = k
    · subst h
      rw [lookupKey_eq_none_of_not_mem rest k₀ (by simpa [keysOf] using hnd.1)]
      simp [lookupKey, lookupKey_setKey_self]
    · cases hr : lookupKey rest k <;>
        simp [lookupKey, h, hr, lookupKey_setKey_ne t k₀ k v₀ (fun hh => h hh.symm)]

/-- C1: the resolved style's `background` is `linearGradient` when
`useLinearGradient` is true and `backgroundColor` when it is false,
and `width`, `minHeight`, `color = textColor`, `fontSize`,
`fontFamily` pass through unchanged. -/
theorem resolveStyles_background_spec (s : PluginSettings) :
    (s.useLinearGradient = true → (resolveStyles s).background = s.linearGradient) ∧
    (s.useLinearGradient = false → (resolveStyles s).background = s.backgroundColor) ∧
    (resolveStyles s).width = s.width ∧
    (resolveStyles s).minHeight = s.minHeight ∧
    (resolveStyles s).color = s.textColor ∧
    (resolveStyles s).fontSize = s.fontSize ∧
    (resolveStyles s).fontFamily = s.fontFamily := by
  refine ⟨fun h => ?_, fun h => ?_, rfl, rfl, rfl, rfl, rfl⟩ <;>
    simp [resolveStyles, h]

/-- C4: `loadSettings` merges the persisted blob over the hard-coded
defaults field by field: every key present in the blob takes the blob's
value (extra keys included), and every key absent from the blob falls
back to `DEFAULT_SETTINGS`. -/
theorem loadSettings_merge_spec (data : List (String × Value))
    (hnd : (keysOf data).Nodup) (k : String) :
    lookupKey (loadSettings data) k =
      match lookupKey data k with
      | some v => some v
      | none => lookupKey defaultsMap k := by
  unfold loadSettings
  rw [lookupKey_objAssign _ _ _ hnd, lookupKey_objAssign _ _ _ (by decide)]
  cases lookupKey data k <;> cases hd : lookupKey defaultsMap k <;> simp [lookupKey]

/-- Witness for C4 on the blob `[width ↦ "500px", extra ↦ true]`:
the present field overrides, the absent field defaults, the extra
field is retained. -/
theorem loadSettings_merge_spec_witness :
    lookupKey (loadSettings [("width", Value.str "500px"), ("extra", Value.bool true)])
        "width" = some (Value.str "500px") ∧
    lookupKey (loadSettings [("width", Value.str "500px"), ("extra", Value.bool true)])
        "minHeight" = some (Value.str "200px") ∧
    lookupKey (loadSettings [("width", Value.str "500px"), ("extra", Value.bool true)])
        "extra" = some (Value.bool true) := by
  refine ⟨?_, ?_, ?_⟩
  · rw [loadSettings_merge_spec _ (by decide) "width"]; decide
  · rw [loadSettings_merge_spec _ (by decide) "minHeight"]; decide
  · rw [loadSettings_merge_spec _ (by decide) "extra"]; decide

theorem setKey_eq_of_lookup (m : List (String × Value)) (k : String) (v : Value)
    (h : lookupKey m k = some v) : setKey m k v = m := by
  induction m with
  | nil => simp [lookupKey] at h
  | cons kv rest ih =>
    obtain ⟨k', v'⟩ := kv
    by_cases hk : k' = k
    · subst hk
      simp [lookupKey] at h
      simp [setKey, h]
    · simp only [lookupKey, if_neg hk] at h
      simp [setKey, hk, ih h]

theorem lookupKey_of_mem_nodup (m : List (String × Value))
    (hnd : (keysOf m).Nodup) (kv : String × Value) (hm : kv ∈ m) :
    lookupKey m kv.1 = some kv.2 := by
  induction m with
  | nil => simp at hm
  | cons hd rest ih =>
    obtain ⟨k', v'⟩ := hd
    simp only [keysOf, List.map_cons, List.nodup_cons] at hnd
    rcases List.mem_cons.mp hm with h | h
    · subst h
      simp [lookupKey]
    · have hne : k' ≠ kv.1 := by
        intro he
        exact hnd.1 (by rw [he]; exact List.mem_map_of_mem Prod.fst h)
      simp [lookupKey, hne, ih (by simpa [keysOf] using hnd.2) h]

theorem objAssign_self_of_lookup (m data : List (String × Value))
    (h : ∀ kv ∈ data, lookupKey m kv.1 = some kv.2) : objAssign m data = m := by
  induction data with
  | nil => rfl
  | cons kv rest ih =>
    rw [objAssign_cons, setKey_eq_of_lookup m kv.1 kv.2 (h kv (List.mem_cons_self kv rest))]
    exact ih (fun kv' h' => h kv' (List.mem_cons_of_mem kv h'))

/-- C7: settings loading is idempotent. `loadSettings` rebuilds the
record from the defaults and the blob alone, so loading the same blob a
second time leaves the `settings` state unchanged; moreover re-merging
the same blob over the once-loaded record is a no-op. -/
theorem loadSettings_idempotent (old data : List (String × Value))
    (hnd : (keysOf data).Nodup) :
    loadSettingsState (loadSettingsState old data) data = loadSettingsState old data ∧
    objAssign (loadSettings data) data = loadSettings data := by
  refine ⟨rfl, objAssign_self_of_lookup _ _ ?_⟩
  intro kv hkv
  unfold loadSettings
  rw [lookupKey_objAssign _ _ _ hnd, lookupKey_of_mem_nodup data hnd kv hkv]

/-- Witness for C7 at the one-field blob `[width ↦ "42px"]`. -/
theorem loadSettings_idempotent_witness :
    loadSettingsState (loadSettingsState [] [("width", Value.str "42px")])
        [("width", Value.str "42px")]
      = loadSettingsState [] [("width", Value.str "42px")] ∧
    objAssign (loadSettings [("width", Value.str "42px")]) [("width", Value.str "42px")]
      = loadSettings [("width", Value.str "42px")] :=
  loadSettings_idempotent [] [("width", Value.str "42px")] (by decide)

/-- C9: the merge in `loadSettings` writes only into the freshly
allocated empty object, so the heap object holding `DEFAULT_SETTINGS`
(or any pre-existing object) is unchanged after loading. -/
theorem loadSettingsHeap_preserves_defaults (h : Heap) (dref : Nat)
    (data : List (String × Value)) (hlt : dref < h.objs.length) :
    ((loadSettingsHeap h dref data).1).get dref = h.get dref := by
  have hne : h.objs.length ≠ dref := (Nat.ne_of_lt hlt).symm
  simp only [loadSettingsHeap, assignInto, Heap.alloc, Heap.set, Heap.get]
  rw [List.getD_eq_getElem?_getD, List.getD_eq_getElem?_getD,
      List.getElem?_set_ne hne, List.getElem?_set_ne hne,
      List.getElem?_append_left hlt, ← List.getD_eq_getElem?_getD]

/-- Witness for C9: a one-object heap holding `DEFAULT_SETTINGS` at
reference 0 is unchanged at reference 0 by a load. -/
theorem loadSettingsHeap_preserves_defaults_witness :
    ((loadSettingsHeap ⟨[defaultsMap]⟩ 0 [("width", Value.str "1px")]).1).get 0
      = Heap.get ⟨[defaultsMap]⟩ 0 :=
  loadSettingsHeap_preserves_defaults ⟨[defaultsMap]⟩ 0 [("width", Value.str "1px")]
    (by simp)

/-- C5: with no active Markdown view, generation aborts before any
rendering: no DOM insertion, no file-system call, and exactly one
notice. -/
theorem generatePngMemo_no_view (env : Env) (s : PluginSettings)
    (h : env.activeView = none) :
    (generatePngMemo env s).domOps = [] ∧
    (generatePngMemo env s).fsOps = [] ∧
    (generatePngMemo env s).notices = [NoticeMsg.noActiveView] := by
  simp [generatePngMemo, h]

/-- Witness for C5 at a concrete environment with no active view. -/
theorem generatePngMemo_no_view_witness :
    (generatePngMemo ⟨none, .ok "data:image/png;base64,AAAA", adapterOk, 0⟩
        DEFAULT_SETTINGS).domOps = [] ∧
    (generatePngMemo ⟨none, .ok "data:image/png;base64,AAAA", adapterOk, 0⟩
        DEFAULT_SETTINGS).fsOps = [] ∧
    (generatePngMemo ⟨none, .ok "data:image/png;base64,AAAA", adapterOk, 0⟩
        DEFAULT_SETTINGS).notices = [NoticeMsg.noActiveView] :=
  generatePngMemo_no_view ⟨none, .ok "data:image/png;base64,AAAA", adapterOk, 0⟩
    DEFAULT_SETTINGS rfl

/-- C6: with an active view whose selection is empty, generation is not
attempted: no DOM insertion, no file-system call, and exactly one
notice. -/
theorem generatePngMemo_empty_selection (env : Env) (s : PluginSettings)
    (v : EditorView) (hv : env.activeView = some v) (hs : v.selection = "") :
    (generatePngMemo env s).domOps = [] ∧
    (generatePngMemo env s).fsOps = [] ∧
    (generatePngMemo env s).notices = [NoticeMsg.noSelection] := by
  simp [generatePngMemo, hv, hs]

/-- Witness for C6 at a concrete environment with an empty selection. -/
theorem generatePngMemo_empty_selection_witness :
    (generatePngMemo ⟨some ⟨""⟩, .ok "data:image/png;base64,AAAA", adapterOk, 0⟩
        DEFAULT_SETTINGS).domOps = [] ∧
    (generatePngMemo ⟨some ⟨""⟩, .ok "data:image/png;base64,AAAA", adapterOk, 0⟩
        DEFAULT_SETTINGS).fsOps = [] ∧
    (generatePngMemo ⟨some ⟨""⟩, .ok "data:image/png;base64,AAAA", adapterOk, 0⟩
        DEFAULT_SETTINGS).notices = [NoticeMsg.noSelection] :=
  generatePngMemo_empty_selection
    ⟨some ⟨""⟩, .ok "data:image/png;base64,AAAA", adapterOk, 0⟩
    DEFAULT_SETTINGS ⟨""⟩ rfl rfl

/-- C8: when the parent directory is absent the adapter's `mkdir` is
called right after the existence check and before any write; when it is
already present, the calls are exactly the existence check and the
binary write, with no directory creation. -/
theorem savePngToVault_mkdir_spec (a : Adapter) (p : String) (buf : Buffer) :
    (a.existsDir (dirOf (normalizePath p)) = .ok false →
      ((savePngToVault a p buf).ops).take 2
        = [FsOp.checkExists (dirOf (normalizePath p)),
           FsOp.mkdir (dirOf (normalizePath p))]) ∧
    (a.existsDir (dirOf (normalizePath p)) = .ok true →
      (savePngToVault a p buf).ops
        = [FsOp.checkExists (dirOf (normalizePath p)),
           FsOp.writeBinary (normalizePath p) buf]) := by
  constructor <;> intro h
  · cases hm : a.mkdir (dirOf (normalizePath p)) <;>
      cases hw : a.writeBinary (normalizePath p) buf <;>
        simp [savePngToVault, savePngBody, h, hm, hw]
  · cases hw : a.writeBinary (normalizePath p) buf <;>
      simp [savePngToVault, savePngBody, h, hw]

/-- Witness for C8 on the path `memos/memo-1.png`: with the directory
absent, the check is followed by `mkdir "memos"`; with it present, the
calls are exactly the check and the write. -/
theorem savePngToVault_mkdir_spec_witness :
    ((savePngToVault adapterNoDir "memos/memo-1.png" ⟨"AAAA"⟩).ops).take 2
      = [FsOp.checkExists "memos", FsOp.mkdir "memos"] ∧
    (savePngToVault adapterOk "memos/memo-1.png" ⟨"AAAA"⟩).ops
      = [FsOp.checkExists "memos",
         FsOp.writeBinary "memos/memo-1.png" ⟨"AAAA"⟩] := by
  constructor
  · rw [(savePngToVault_mkdir_spec adapterNoDir "memos/memo-1.png" ⟨"AAAA"⟩).1 rfl]
    decide
  · rw [(savePngToVault_mkdir_spec adapterOk "memos/memo-1.png" ⟨"AAAA"⟩).2 rfl]
    decide

theorem savePngToVault_outcome_ok (a : Adapter) (p : String) (buf : Buffer) :
    (savePngToVault a p buf).outcome = .ok () := by
  rcases hb : savePngBody a p buf with ⟨ops, out⟩
  cases out <;> simp [savePngToVault, hb]

theorem savePngToVault_notices_of_error (a : Adapter) (p : String) (buf : Buffer)
    (e : String) (he : (savePngBody a p buf).2 = .error e) :
    (savePngToVault a p buf).notices = [NoticeMsg.saveFailed e] := by
  rcases hb : savePngBody a p buf with ⟨ops, out⟩
  rw [hb] at he
  cases out with
  | ok u => simp at he
  | error e₀ =>
    simp only [Except.error.injEq] at he
    subst he
    simp [savePngToVault, hb]

theorem savePngToVault_notices_of_ok (a : Adapter) (p : String) (buf : Buffer)
    (hok : (savePngBody a p buf).2 = .ok ()) :
    (savePngToVault a p buf).notices = [] := by
  rcases hb : savePngBody a p buf with ⟨ops, out⟩
  rw [hb] at hok
  cases out with
  | ok u => simp [savePngToVault, hb]
  | error e₀ => simp at hok

/-- C10: `savePngToVault` never propagates an error: for every adapter
behaviour it resolves normally, a thrown error becomes exactly one
failure notice with the underlying message, and no notice is shown on
success. -/
theorem savePngToVault_no_throw (a : Adapter) (p : String) (buf : Buffer) :
    (savePngToVault a p buf).outcome = .ok () ∧
    (∀ e, (savePngBody a p buf).2 = .error e →
      (savePngToVault a p buf).notices = [NoticeMsg.saveFailed e]) ∧
    ((savePngBody a p buf).2 = .ok () →
      (savePngToVault a p buf).notices = []) :=
  ⟨savePngToVault_outcome_ok a p buf,
   fun e he => savePngToVault_notices_of_error a p buf e he,
   fun hok => savePngToVault_notices_of_ok a p buf hok⟩

/-- Witness for C10 at an adapter whose write throws "disk full": the
call still resolves normally and shows the one failure notice. -/
theorem savePngToVault_no_throw_witness :
    (savePngToVault adapterWriteFails "memos/memo-1.png" ⟨"AAAA"⟩).outcome = .ok () ∧
    (savePngToVault adapterWriteFails "memos/memo-1.png" ⟨"AAAA"⟩).notices
      = [NoticeMsg.saveFailed "disk full"] :=
  ⟨(savePngToVault_no_throw adapterWriteFails "memos/memo-1.png" ⟨"AAAA"⟩).1,
   (savePngToVault_no_throw adapterWriteFails "memos/memo-1.png" ⟨"AAAA"⟩).2.1
     "disk full" rfl⟩

/-- C2: when rasterization succeeds but the persistence call throws,
the error is caught at the persistence boundary: the invocation still
completes normally and exactly one notice carrying the underlying error
message is shown. -/
theorem generatePngMemo_io_error (env : Env) (s : PluginSettings)
    (v : EditorView) (dataUrl msg : String)
    (hv : env.activeView = some v) (hs : v.selection ≠ "")
    (hr : env.raster = .ok dataUrl)
    (he : (savePngBody env.adapter (memoFilePath env.now) (bufferOfCanvas dataUrl)).2
            = .error msg) :
    (generatePngMemo env s).outcome = .ok () ∧
    (generatePngMemo env s).notices.count (NoticeMsg.saveFailed msg) = 1 := by
  have hn : (savePngToVault env.adapter (memoFilePath env.now)
      (bufferOfCanvas dataUrl)).notices = [NoticeMsg.saveFailed msg] :=
    savePngToVault_notices_of_error env.adapter (memoFilePath env.now)
      (bufferOfCanvas dataUrl) msg he
  constructor
  · simp [generatePngMemo, hv, if_neg hs, createPngFromText, hr]
  · simp only [generatePngMemo, hv, if_neg hs, createPngFromText, hr, hn]
    simp [List.count_append, List.count_cons, List.count_nil]

/-- Witness for C2: a full invocation with a selection, a successful
rasterization, and a write that throws "disk full". -/
theorem generatePngMemo_io_error_witness :
    (generatePngMemo
        ⟨some ⟨"Hello"⟩, .ok "data:image/png;base64,AAAA", adapterWriteFails, 7⟩
        DEFAULT_SETTINGS).outcome = .ok () ∧
    (generatePngMemo
        ⟨some ⟨"Hello"⟩, .ok "data:image/png;base64,AAAA", adapterWriteFails, 7⟩
        DEFAULT_SETTINGS).notices.count (NoticeMsg.saveFailed "disk full") = 1 :=
  generatePngMemo_io_error
    ⟨some ⟨"Hello"⟩, .ok "data:image/png;base64,AAAA", adapterWriteFails, 7⟩
    DEFAULT_SETTINGS ⟨"Hello"⟩ "data:image/png;base64,AAAA" "disk full"
    rfl (by decide) rfl rfl

/-- C3 (refuted by the code): on the rasterization-failure path the
temporary div is appended but never removed — the `.then` continuation
holding `removeChild` is skipped and there is no rejection handler, so
the styled element leaks into the render tree. -/
theorem createPngFromText_leaks_div_on_raster_failure :
    (createPngFromText envRasterFails DEFAULT_SETTINGS "Hello").domOps
      = [DomOp.appendChild] ∧
    DomOp.removeChild ∉
      (createPngFromText envRasterFails DEFAULT_SETTINGS "Hello").domOps ∧
    (createPngFromText envRasterFails DEFAULT_SETTINGS "Hello").outcome
      = .error "render failed" :=
  ⟨rfl, by decide, rfl⟩

/-- Witness for C1 at two concrete configuration records, one with the
gradient enabled and one with it disabled. -/
theorem resolveStyles_background_spec_witness :
    (resolveStyles DEFAULT_SETTINGS).background = DEFAULT_SETTINGS.linearGradient ∧
    (resolveStyles { DEFAULT_SETTINGS with useLinearGradient := false }).background
      = DEFAULT_SETTINGS.backgroundColor :=
  ⟨(resolveStyles_background_spec DEFAULT_SETTINGS).1 rfl,
   (resolveStyles_background_spec { DEFAULT_SETTINGS with useLinearGradient := false }).2.1 rfl⟩

end Memocards
